import Mathlib

/-!
Verification of the managed-thread core of `juce_core/threads/juce_Thread.cpp`
(JUCE thread wrapper: cooperative cancellation, start/stop synchronization,
process-wide registry of running threads).

A shallow embedding is used.  Machine pointers/handles are modelled as `Nat`
with `0` playing the role of the null pointer (as in the C++ source, where
`threadHandle_ == 0` means "no native thread").  The platform-specific
functions (`juce_createThread`, `juce_setThreadPriority`, ...) are modelled by
an explicit oracle structure `Platform`, and the outcome of timing-dependent
waits (whether the target thread exited during a bounded wait, whether the
start gate was observed signalled) by explicit boolean oracle parameters.
Cross-thread interleaving relevant to the registry invariant is modelled by a
small-step relation `Step` whose steps mirror the lock-protected blocks of the
source.
-/

namespace JuceThread

/-- Per-instance fields of `class Thread` that the translated methods touch
(constructor initialisation at `juce_Thread.cpp` lines 103-111).  Handles and
thread ids are `Nat` with `0` = null.  The two `WaitableEvent` members are
modelled by their signalled bit. -/
structure ThreadState where
  threadName_ : String
  threadHandle_ : Nat
  threadPriority_ : Int
  threadId_ : Nat
  affinityMask_ : Nat
  threadShouldExit_ : Bool
  startGateSignaled_ : Bool
  defaultEventSignaled_ : Bool
deriving DecidableEq, Repr

/-- State produced by the constructor `Thread::Thread (threadName)`
(lines 103-111): null handle and id, priority 5, no affinity, no exit
request, both events unsignalled. -/
def ThreadState.mk0 (threadName : String) : ThreadState :=
  { threadName_ := threadName
    threadHandle_ := 0
    threadPriority_ := 5
    threadId_ := 0
    affinityMask_ := 0
    threadShouldExit_ := false
    startGateSignaled_ := false
    defaultEventSignaled_ := false }

/-- `Thread::isThreadRunning` (lines 148-151): `threadHandle_ != 0`. -/
def isThreadRunning (t : ThreadState) : Bool :=
  t.threadHandle_ != 0

/-- `Thread::signalThreadShouldExit` (lines 154-157). -/
def signalThreadShouldExit (t : ThreadState) : ThreadState :=
  { t with threadShouldExit_ := true }

/-- `Thread::notify` (lines 246-249): `defaultEvent_.signal()`. -/
def notify (t : ThreadState) : ThreadState :=
  { t with defaultEventSignaled_ := true }

/-- Oracle for the platform-specific collaborators declared at lines 42-49:
`createThread` is the (nonzero-on-success) handle returned by
`juce_createThread`, and `setPrioOk h p` is the boolean result of
`juce_setThreadPriority (h, p)`. -/
structure Platform where
  createThread : Nat
  setPrioOk : Nat → Int → Bool

/-- `Thread::startThread()` (lines 119-131).  Under the start/stop lock:
unconditionally clear `threadShouldExit_` (line 123); then, only if the
handle is null, create the native thread, apply the cached priority (the
boolean result of `juce_setThreadPriority` is discarded at line 128, so it
has no state effect here) and signal the start gate.  The returned flag
records whether `juce_createThread` was invoked (a new native thread was
created). -/
def startThread (plat : Platform) (t : ThreadState) : ThreadState × Bool :=
  let t1 := { t with threadShouldExit_ := false }
  if t1.threadHandle_ = 0 then
    ({ t1 with threadHandle_ := plat.createThread, startGateSignaled_ := true }, true)
  else
    (t1, false)

/-- `Thread::setPriority` (lines 213-223): call the platform priority setter
on the current handle; cache the new priority only if it reported success;
return that result. -/
def setPriority (plat : Platform) (priority : Int) (t : ThreadState) : ThreadState × Bool :=
  let worked := plat.setPrioOk t.threadHandle_ priority
  (if worked then { t with threadPriority_ := priority } else t, worked)

/-- `Thread::startThread (priority)` (lines 133-146): if the handle is null,
store the priority into the cached field and delegate to `startThread()`;
otherwise call `setPriority` on the live thread (no new thread is created). -/
def startThreadWithPriority (plat : Platform) (priority : Int) (t : ThreadState) :
    ThreadState × Bool :=
  if t.threadHandle_ = 0 then
    startThread plat { t with threadPriority_ := priority }
  else
    ((setPriority plat priority t).1, false)

/-! ### Claims C3, C8, C10: `startThread` / `setPriority` in isolation -/

/-- C3: for every Thread whose native handle is non-null (already running),
the parameterless `startThread()` leaves the native handle and the thread id
at their pre-call values and does not create a new native thread
(`juce_createThread` is not invoked). -/
theorem C3_startThread_noop_when_running (plat : Platform) (t : ThreadState)
    (h : isThreadRunning t = true) :
    (startThread plat t).1.threadHandle_ = t.threadHandle_ ∧
    (startThread plat t).1.threadId_ = t.threadId_ ∧
    (startThread plat t).2 = false := by
  simp only [isThreadRunning, bne_iff_ne, ne_eq, decide_eq_true_eq] at h
  simp [startThread, h]

/-- Witness for C3 at a concrete running thread. -/
theorem C3_startThread_noop_when_running_witness :
    isThreadRunning { ThreadState.mk0 "w" with threadHandle_ := 7, threadId_ := 3 } = true ∧
    ((startThread ⟨9, fun _ _ => true⟩
        { ThreadState.mk0 "w" with threadHandle_ := 7, threadId_ := 3 }).1.threadHandle_ =
      ({ ThreadState.mk0 "w" with threadHandle_ := 7, threadId_ := 3 } : ThreadState).threadHandle_ ∧
    (startThread ⟨9, fun _ _ => true⟩
        { ThreadState.mk0 "w" with threadHandle_ := 7, threadId_ := 3 }).1.threadId_ =
      ({ ThreadState.mk0 "w" with threadHandle_ := 7, threadId_ := 3 } : ThreadState).threadId_ ∧
    (startThread ⟨9, fun _ _ => true⟩
        { ThreadState.mk0 "w" with threadHandle_ := 7, threadId_ := 3 }).2 = false) :=
  ⟨by decide, C3_startThread_noop_when_running ⟨9, fun _ _ => true⟩ _ (by decide)⟩

/-- C8: `setPriority (p)` returns exactly the boolean result of the
underlying platform call (`juce_setThreadPriority (threadHandle_, p)`), and
the cached `threadPriority_` is `p` if that call succeeded and is otherwise
the unchanged pre-call value; indeed on failure the whole state is
unchanged. -/
theorem C8_setPriority_cache_iff_success (plat : Platform) (priority : Int) (t : ThreadState) :
    (setPriority plat priority t).2 = plat.setPrioOk t.threadHandle_ priority ∧
    (setPriority plat priority t).1 =
      (if plat.setPrioOk t.threadHandle_ priority then { t with threadPriority_ := priority }
       else t) := by
  simp [setPriority]

/-- C10: the parameterless `startThread()` clears `threadShouldExit_`
unconditionally (line 123 precedes the null-handle check at line 125), so a
pending `signalThreadShouldExit()` on a running thread is silently cancelled
by `startThread()` while the handle is left unchanged. -/
theorem C10_startThread_clears_pending_exit_signal (plat : Platform) (t : ThreadState) :
    (startThread plat t).1.threadShouldExit_ = false ∧
    (startThread plat (signalThreadShouldExit t)).1.threadShouldExit_ = false ∧
    (isThreadRunning t = true →
      (startThread plat (signalThreadShouldExit t)).1 =
        { t with threadShouldExit_ := false } ∧
      (startThread plat (signalThreadShouldExit t)).2 = false) := by
  refine ⟨?_, ?_, ?_⟩
  · simp only [startThread]
    split <;> rfl
  · simp only [startThread, signalThreadShouldExit]
    split <;> rfl
  · intro h
    simp only [isThreadRunning, bne_iff_ne, ne_eq, decide_eq_true_eq] at h
    simp [startThread, signalThreadShouldExit, h]

/-- Witness for C10 at a concrete running thread with a pending exit signal. -/
theorem C10_startThread_clears_pending_exit_signal_witness :
    ((startThread ⟨9, fun _ _ => true⟩
        { ThreadState.mk0 "w" with threadHandle_ := 7 }).1.threadShouldExit_ = false ∧
    (startThread ⟨9, fun _ _ => true⟩
        (signalThreadShouldExit
          { ThreadState.mk0 "w" with threadHandle_ := 7 })).1.threadShouldExit_ = false ∧
    (isThreadRunning { ThreadState.mk0 "w" with threadHandle_ := 7 } = true →
      (startThread ⟨9, fun _ _ => true⟩
          (signalThreadShouldExit { ThreadState.mk0 "w" with threadHandle_ := 7 })).1 =
        { ({ ThreadState.mk0 "w" with threadHandle_ := 7 } : ThreadState) with
            threadShouldExit_ := false } ∧
      (startThread ⟨9, fun _ _ => true⟩
          (signalThreadShouldExit { ThreadState.mk0 "w" with threadHandle_ := 7 })).2 = false)) :=
  C10_startThread_clears_pending_exit_signal ⟨9, fun _ _ => true⟩ _

/-- Unfolding of `isThreadRunning` on the true side. -/
theorem isThreadRunning_eq_true (t : ThreadState) :
    isThreadRunning t = true ↔ t.threadHandle_ ≠ 0 := by
  simp [isThreadRunning]

/-- Unfolding of `isThreadRunning` on the false side. -/
theorem isThreadRunning_eq_false (t : ThreadState) :
    isThreadRunning t = false ↔ t.threadHandle_ = 0 := by
  simp [isThreadRunning]

/-! ### Claim C4: `startThread (priority)` -/

/-- Concrete idle thread used to refute C4's idle-path equivalence. -/
def th4 : ThreadState := ThreadState.mk0 "x"

/-- Platform oracle on which every `juce_setThreadPriority` call fails. -/
def plat4 : Platform := ⟨7, fun _ _ => false⟩

/-- C4 counterexample: on an idle thread, `startThread (priority)` is NOT
equivalent to `setPriority (priority)` followed by `startThread()`.  With a
platform on which `juce_setThreadPriority` fails, `startThread (3)` stores
priority 3 into the cached field unconditionally (line 139), whereas
`setPriority (3)` leaves the cached priority at its initial value 5 (line
219-220), so the two call sequences end in different states. -/
theorem C4_counterexample :
    (startThreadWithPriority plat4 3 th4).1 ≠ (startThread plat4 (setPriority plat4 3 th4).1).1 := by
  decide

/-- C4 amended: if the thread is running, `startThread (p)` calls
`setPriority (p)` and leaves handle and id unchanged (it does not restart the
thread); if the thread is idle, `startThread (p)` stores `p` directly into
the cached priority field (without any platform priority call on the null
handle) and then behaves exactly as `startThread()` — which need not
coincide with `setPriority (p)` followed by `startThread()` (see the
counterexample); it does coincide whenever the platform priority call on the
null handle reports success. -/
theorem C4_startThreadWithPriority_amended (plat : Platform) (p : Int) (t : ThreadState) :
    (isThreadRunning t = true →
      startThreadWithPriority plat p t = ((setPriority plat p t).1, false) ∧
      (startThreadWithPriority plat p t).1.threadHandle_ = t.threadHandle_ ∧
      (startThreadWithPriority plat p t).1.threadId_ = t.threadId_) ∧
    (isThreadRunning t = false →
      startThreadWithPriority plat p t = startThread plat { t with threadPriority_ := p }) ∧
    (isThreadRunning t = false → plat.setPrioOk 0 p = true →
      startThreadWithPriority plat p t = startThread plat (setPriority plat p t).1) := by
  refine ⟨?_, ?_, ?_⟩
  · intro h
    rw [isThreadRunning_eq_true] at h
    refine ⟨by simp [startThreadWithPriority, h], ?_, ?_⟩ <;>
    · simp only [startThreadWithPriority, if_neg h, setPriority]
      split <;> rfl
  · intro h
    rw [isThreadRunning_eq_false] at h
    simp [startThreadWithPriority, h]
  · intro h hok
    rw [isThreadRunning_eq_false] at h
    simp [startThreadWithPriority, setPriority, h, hok]

/-- Witness for the amended C4 at a concrete idle thread on a platform whose
priority call succeeds: both the idle characterisation and the
success-conditioned equivalence hold. -/
theorem C4_startThreadWithPriority_amended_witness :
    (isThreadRunning th4 = false →
      startThreadWithPriority ⟨7, fun _ _ => true⟩ 3 th4 =
        startThread ⟨7, fun _ _ => true⟩ { th4 with threadPriority_ := 3 }) ∧
    (isThreadRunning th4 = false → (⟨7, fun _ _ => true⟩ : Platform).setPrioOk 0 3 = true →
      startThreadWithPriority ⟨7, fun _ _ => true⟩ 3 th4 =
        startThread ⟨7, fun _ _ => true⟩ (setPriority ⟨7, fun _ _ => true⟩ 3 th4).1) :=
  ⟨(C4_startThreadWithPriority_amended ⟨7, fun _ _ => true⟩ 3 th4).2.1,
   (C4_startThreadWithPriority_amended ⟨7, fun _ _ => true⟩ 3 th4).2.2⟩

/-! ### Claim C7: `waitForThreadToExit` -/

/-- Fixed polling interval of `Thread::waitForThreadToExit` (line 164). -/
def sleepMsPerIteration : Int := 5

/-- Loop body of `Thread::waitForThreadToExit` (lines 167-175).  `running k`
is the value `isThreadRunning()` returns at the poll performed after `k`
sleeps of `sleepMsPerIteration` milliseconds; `count` is the loop's remaining
iteration budget (decremented only when the timeout is positive, matching the
short-circuit `timeOutMilliseconds > 0 && --count < 0`); `fuel` bounds the
recursion depth of the embedding, `none` meaning the source loop has not
returned within `fuel` polls. -/
def wfteGo (running : Nat → Bool) (timeOutMilliseconds : Int) :
    Int → Nat → Nat → Option (Bool × Nat)
  | _, _, 0 => none
  | count, k, fuel + 1 =>
    if running k = false then some (true, k)
    else if 0 < timeOutMilliseconds then
      if count - 1 < 0 then some (false, k)
      else wfteGo running timeOutMilliseconds (count - 1) (k + 1) fuel
    else wfteGo running timeOutMilliseconds count (k + 1) fuel

/-- `Thread::waitForThreadToExit (timeOutMilliseconds)` (lines 159-176):
`count` starts at `timeOutMilliseconds / sleepMsPerIteration` (line 165).
The result pairs the returned boolean with the number of 5 ms sleeps
performed. -/
def waitForThreadToExit (running : Nat → Bool) (timeOutMilliseconds : Int) (fuel : Nat) :
    Option (Bool × Nat) :=
  wfteGo running timeOutMilliseconds (timeOutMilliseconds / sleepMsPerIteration) 0 fuel

theorem wfteGo_pos (running : Nat → Bool) (t : Int) (ht : 0 < t) :
    ∀ (c k : Nat), ∃ r kk, wfteGo running t (Int.ofNat c) k (c + 1) = some (r, kk) ∧
      (r = true ↔ ∃ j ≤ c, running (k + j) = false) ∧ (r = false → kk = k + c) := by
  intro c
  induction c with
  | zero =>
    intro k
    by_cases hk : running k = false
    · refine ⟨true, k, by simp [wfteGo, hk], by simp [hk], ?_⟩
      intro h
      exact absurd h (by simp)
    · refine ⟨false, k, ?_, ?_, fun _ => by simp⟩
      · simp [wfteGo, hk, ht]
      · simp only [Bool.false_eq_true, false_iff, not_exists]
        intro j hj
        obtain ⟨hj0, hrj⟩ := hj
        obtain rfl : j = 0 := Nat.le_zero.mp hj0
        simp only [Nat.add_zero] at hrj
        exact hk hrj
  | succ c ih =>
    intro k
    by_cases hk : running k = false
    · refine ⟨true, k, by simp [wfteGo, hk], ?_, ?_⟩
      · constructor
        · intro _
          exact ⟨0, by omega, by simpa using hk⟩
        · intro _
          rfl
      · intro h
        exact absurd h (by simp)
    · have hcast : (Int.ofNat (c + 1)) - 1 = Int.ofNat c := by
        simp only [Int.ofNat_eq_coe]; push_cast; ring
      have hnneg : ¬ ((Int.ofNat (c + 1)) - 1 < 0) := by
        simp only [Int.ofNat_eq_coe]; push_cast; omega
      obtain ⟨r, kk, heq, hiff, hfk⟩ := ih (k + 1)
      refine ⟨r, kk, ?_, ?_, ?_⟩
      · simpa [wfteGo, hk, ht, hnneg, hcast] using heq
      · rw [hiff]
        constructor
        · rintro ⟨j, hj, hrj⟩
          refine ⟨j + 1, by omega, ?_⟩
          have ha : k + (j + 1) = k + 1 + j := by omega
          rw [ha]
          exact hrj
        · rintro ⟨j, hj, hrj⟩
          cases j with
          | zero =>
            simp only [Nat.add_zero] at hrj
            exact absurd hrj hk
          | succ j =>
            refine ⟨j, by omega, ?_⟩
            have ha : k + 1 + j = k + (j + 1) := by omega
            rw [ha]
            exact hrj
      · intro h
        have := hfk h
        omega

theorem wfteGo_nonpos (running : Nat → Bool) (t : Int) (ht : ¬ 0 < t) :
    ∀ (fuel : Nat) (count : Int) (k : Nat) (r : Bool) (kk : Nat),
      wfteGo running t count k fuel = some (r, kk) → r = true ∧ running kk = false := by
  intro fuel
  induction fuel with
  | zero =>
    intro count k r kk h
    simp [wfteGo] at h
  | succ fuel ih =>
    intro count k r kk h
    by_cases hk : running k = false
    · rw [wfteGo, if_pos hk] at h
      simp only [Option.some.injEq, Prod.mk.injEq] at h
      obtain ⟨h1, h2⟩ := h
      exact ⟨h1.symm, h2 ▸ hk⟩
    · rw [wfteGo, if_neg hk, if_neg ht] at h
      exact ih count (k + 1) r kk h

/-- C7 counterexample, refuting the claim at timeout 0: the thread is still
running at poll 0 (the only poll within the budget of `0 / 5 = 0`
iterations) and exits only at poll 100 — 500 ms later — yet the call returns
`true` after 100 sleep iterations, because at `timeOutMilliseconds = 0` the
guard `timeOutMilliseconds > 0` at line 169 never fires and the wait is
unbounded.  So with timeout 0 the function neither returns `false` when the
budget is exhausted nor stays within `t / 5` polling iterations. -/
theorem C7_counterexample :
    waitForThreadToExit (fun j => decide (j < 100)) 0 101 = some (true, 100) ∧
    (fun j : Nat => decide (j < 100)) 0 = true ∧
    ((0 : Int) / sleepMsPerIteration).toNat = 0 :=
  ⟨by decide, by decide, by decide⟩

/-- C7 amended: for a caller distinct from the target, `waitForThreadToExit`
polls `isThreadRunning()` every `sleepMsPerIteration` = 5 ms, and: with a
positive timeout `t` it returns, returning `true` iff the thread was
observed exited at one of the polls within the `t / sleepMsPerIteration`
iteration budget, and performing exactly `t / 5` sleep iterations when it
returns `false`; with timeout 0 (or negative) the budget guard at line 169
is disabled, the wait is unbounded, and whenever the call returns it returns
`true`, at a poll that observed the thread exited — regardless of how far
past the nominal budget that is. -/
theorem C7_waitForThreadToExit_polls (running : Nat → Bool) (t : Int) (caller target : Nat)
    (hdistinct : caller ≠ target) :
    (0 < t →
      ∃ r kk,
        waitForThreadToExit running t ((t / sleepMsPerIteration).toNat + 1) = some (r, kk) ∧
        (r = true ↔ ∃ j ≤ (t / sleepMsPerIteration).toNat, running j = false) ∧
        (r = false → kk = (t / sleepMsPerIteration).toNat)) ∧
    (t ≤ 0 → ∀ (fuel : Nat) (r : Bool) (kk : Nat),
      waitForThreadToExit running t fuel = some (r, kk) → r = true ∧ running kk = false) := by
  constructor
  · intro hpos
    have hnn : 0 ≤ t / sleepMsPerIteration := by
      simp only [sleepMsPerIteration]; omega
    have hcast : Int.ofNat ((t / sleepMsPerIteration).toNat) = t / sleepMsPerIteration := by
      simp [Int.toNat_of_nonneg hnn]
    obtain ⟨r, kk, heq, hiff, hfk⟩ :=
      wfteGo_pos running t hpos ((t / sleepMsPerIteration).toNat) 0
    refine ⟨r, kk, ?_, ?_, ?_⟩
    · rw [waitForThreadToExit, ← hcast]
      exact heq
    · simpa using hiff
    · intro h
      simpa using hfk h
  · intro hle fuel r kk h
    exact wfteGo_nonpos running t (by omega) fuel (t / sleepMsPerIteration) 0 r kk h

/-- Witness for C7: a thread that has already exited at the first poll, with
timeout 7 ms on the positive branch. -/
theorem C7_waitForThreadToExit_polls_witness :
    (0 : Nat) ≠ 1 ∧
    ((0 < (7 : Int) →
      ∃ r kk,
        waitForThreadToExit (fun _ => false) 7 (((7 : Int) / sleepMsPerIteration).toNat + 1) =
          some (r, kk) ∧
        (r = true ↔ ∃ j ≤ ((7 : Int) / sleepMsPerIteration).toNat, (fun _ => false) j = false) ∧
        (r = false → kk = ((7 : Int) / sleepMsPerIteration).toNat)) ∧
    ((7 : Int) ≤ 0 → ∀ (fuel : Nat) (r : Bool) (kk : Nat),
      waitForThreadToExit (fun _ => false) 7 fuel = some (r, kk) →
        r = true ∧ (fun _ : Nat => false) kk = false)) :=
  ⟨by decide, C7_waitForThreadToExit_polls (fun _ => false) 7 0 1 (by decide)⟩

/-! ### Claims C5, C6: the trampoline `Thread::threadEntryPoint` -/

/-- Observable steps of `Thread::threadEntryPoint` (lines 56-93), in source
order: registry insertion (line 60), thread-id capture (line 65), thread-name
application (lines 67-68), the bounded wait on the start gate (line 70) with
its bound and outcome, affinity application (lines 72-73), the user-code call
`run()` (line 75) either returning normally (`runUser`) or raising
(`runFault`, swallowed by `JUCE_CATCH_ALL_ASSERT` at line 78), registry
removal (line 84), handle release (line 91) and id reset (line 92). -/
inductive TEvent where
  | register
  | captureId
  | setName
  | waitGate (boundMs : Nat) (signaled : Bool)
  | setAffinity
  | runUser
  | runFault
  | deregister
  | resetHandle
  | resetId
deriving DecidableEq, Repr

/-- Oracle for the quantities the trampoline reads from the environment:
`tid` is the value of `getCurrentThreadId()` (line 65), `waitOk` the boolean
result of `startSuspensionEvent_.wait (10000)` (line 70), and `runFaults`
whether the user code `run()` (line 75) raises instead of returning. -/
structure TrampOracle where
  tid : Nat
  waitOk : Bool
  runFaults : Bool

/-- Result of one full trampoline execution: the final per-instance state,
the final registry contents, and the trace of observable steps. -/
structure TERes where
  st : ThreadState
  reg : List Nat
  trace : List TEvent
deriving Repr

/-- `Thread::threadEntryPoint` (lines 56-93), executed by the native thread
`self`.  Insert into `runningThreads` (`VoidArray::add` appends; line 60);
inside the `JUCE_TRY` block capture the thread id (line 65), apply the name
when non-empty (lines 67-68), wait up to 10000 ms on the start gate (line
70), and only when that wait reports signalled: apply the affinity mask when
nonzero (lines 72-73) and invoke `run()` (line 75); any fault from `run()` is
swallowed by `JUCE_CATCH_ALL_ASSERT` (line 78).  Then, unconditionally,
remove `self` from the registry (`VoidArray::removeValue` removes the first
occurrence; line 84) and zero the handle and the id (lines 91-92; the
`JUCE_WIN32` `juce_CloseThreadHandle` call releases the handle object and has
no further state effect in this model). -/
def threadEntryPoint (o : TrampOracle) (self : Nat) (t : ThreadState) (reg : List Nat) : TERes :=
  let reg1 := reg ++ [self]
  let t1 := { t with threadId_ := o.tid }
  let nameEvs := if t1.threadName_ = "" then [] else [TEvent.setName]
  let bodyEvs :=
    if o.waitOk then
      (if t1.affinityMask_ = 0 then [] else [TEvent.setAffinity]) ++
        [if o.runFaults then TEvent.runFault else TEvent.runUser]
    else []
  let reg2 := reg1.erase self
  let t2 := { t1 with threadHandle_ := 0, threadId_ := 0 }
  { st := t2
    reg := reg2
    trace := [TEvent.register, TEvent.captureId] ++ nameEvs ++
      [TEvent.waitGate 10000 o.waitOk] ++ bodyEvs ++
      [TEvent.deregister, TEvent.resetHandle, TEvent.resetId] }

/-- Strict trace ordering: both events occur in the trace and the first
occurrence of `e1` precedes the first occurrence of `e2`. -/
def before (e1 e2 : TEvent) (tr : List TEvent) : Prop :=
  e1 ∈ tr ∧ e2 ∈ tr ∧ tr.indexOf e1 < tr.indexOf e2

instance (e1 e2 : TEvent) (tr : List TEvent) : Decidable (before e1 e2 tr) := by
  unfold before
  infer_instance

theorem erase_append_singleton {a : Nat} : ∀ (l : List Nat), a ∉ l → (l ++ [a]).erase a = l := by
  intro l
  induction l with
  | nil =>
    intro _
    simp
  | cons b l ih =>
    intro h
    have hba : ¬ (b = a) := fun hba => h (hba ▸ List.mem_cons_self b l)
    have hal : a ∉ l := fun hal => h (List.mem_cons_of_mem b hal)
    rw [List.cons_append, List.erase_cons, if_neg (by simpa using hba), ih hal]

/-- C5: in one trampoline execution, registry insertion precedes thread-id
capture, which precedes the (10000 ms-bounded) start-gate wait; the name is
applied between them exactly when it is non-empty; `run()` is invoked (either
returning or faulting) iff the gate wait reported signalled; affinity is
applied iff the wait was signalled and the mask is nonzero, and in that case
before `run()`; and when the gate wait times out, `run()` is never invoked
while deregistration and the handle/id reset still occur. -/
theorem C5_trampoline_order (o : TrampOracle) (self : Nat) (t : ThreadState) (reg : List Nat)
    (hself : self ∉ reg) :
    before TEvent.register TEvent.captureId (threadEntryPoint o self t reg).trace ∧
    before TEvent.captureId (TEvent.waitGate 10000 o.waitOk)
      (threadEntryPoint o self t reg).trace ∧
    (t.threadName_ ≠ "" →
      before TEvent.captureId TEvent.setName (threadEntryPoint o self t reg).trace ∧
      before TEvent.setName (TEvent.waitGate 10000 o.waitOk)
        (threadEntryPoint o self t reg).trace) ∧
    (t.threadName_ = "" → TEvent.setName ∉ (threadEntryPoint o self t reg).trace) ∧
    ((TEvent.runUser ∈ (threadEntryPoint o self t reg).trace ∨
        TEvent.runFault ∈ (threadEntryPoint o self t reg).trace) ↔ o.waitOk = true) ∧
    (TEvent.setAffinity ∈ (threadEntryPoint o self t reg).trace ↔
      (o.waitOk = true ∧ t.affinityMask_ ≠ 0)) ∧
    (o.waitOk = true → t.affinityMask_ ≠ 0 →
      (before TEvent.setAffinity TEvent.runUser (threadEntryPoint o self t reg).trace ∨
       before TEvent.setAffinity TEvent.runFault (threadEntryPoint o self t reg).trace)) ∧
    (before (TEvent.waitGate 10000 o.waitOk) TEvent.deregister
      (threadEntryPoint o self t reg).trace) ∧
    (o.waitOk = false →
      TEvent.runUser ∉ (threadEntryPoint o self t reg).trace ∧
      TEvent.runFault ∉ (threadEntryPoint o self t reg).trace ∧
      (threadEntryPoint o self t reg).st.threadHandle_ = 0 ∧
      (threadEntryPoint o self t reg).st.threadId_ = 0 ∧
      self ∉ (threadEntryPoint o self t reg).reg) := by
  obtain ⟨tid, waitOk, runFaults⟩ := o
  have hreg : (threadEntryPoint ⟨tid, waitOk, runFaults⟩ self t reg).reg = reg := by
    simp only [threadEntryPoint]
    exact erase_append_singleton reg hself
  refine ⟨?_, ?_, ?_, ?_, ?_, ?_, ?_, ?_, ?_⟩
  · by_cases hn : t.threadName_ = "" <;> by_cases ha : t.affinityMask_ = 0 <;>
      cases waitOk <;> cases runFaults <;> simp [threadEntryPoint, hn, ha] <;> decide
  · by_cases hn : t.threadName_ = "" <;> by_cases ha : t.affinityMask_ = 0 <;>
      cases waitOk <;> cases runFaults <;> simp [threadEntryPoint, hn, ha] <;> decide
  · by_cases hn : t.threadName_ = "" <;> by_cases ha : t.affinityMask_ = 0 <;>
      cases waitOk <;> cases runFaults <;> simp [threadEntryPoint, hn, ha] <;> decide
  · by_cases hn : t.threadName_ = "" <;> by_cases ha : t.affinityMask_ = 0 <;>
      cases waitOk <;> cases runFaults <;> simp [threadEntryPoint, hn, ha] <;> decide
  · by_cases hn : t.threadName_ = "" <;> by_cases ha : t.affinityMask_ = 0 <;>
      cases waitOk <;> cases runFaults <;> simp [threadEntryPoint, hn, ha] <;> decide
  · by_cases hn : t.threadName_ = "" <;> by_cases ha : t.affinityMask_ = 0 <;>
      cases waitOk <;> cases runFaults <;> simp [threadEntryPoint, hn, ha] <;> decide
  · by_cases hn : t.threadName_ = "" <;> by_cases ha : t.affinityMask_ = 0 <;>
      cases waitOk <;> cases runFaults <;> simp [threadEntryPoint, hn, ha] <;> decide
  · by_cases hn : t.threadName_ = "" <;> by_cases ha : t.affinityMask_ = 0 <;>
      cases waitOk <;> cases runFaults <;> simp [threadEntryPoint, hn, ha] <;> decide
  · intro hw
    cases waitOk
    · refine ⟨?_, ?_, rfl, rfl, ?_⟩
      · by_cases hn : t.threadName_ = "" <;> by_cases ha : t.affinityMask_ = 0 <;>
          cases runFaults <;> simp [threadEntryPoint, hn, ha] <;> decide
      · by_cases hn : t.threadName_ = "" <;> by_cases ha : t.affinityMask_ = 0 <;>
          cases runFaults <;> simp [threadEntryPoint, hn, ha] <;> decide
      · rw [hreg]
        exact hself
    · simp at hw

/-- Witness for C5 at a concrete oracle (gate signalled, faulting user code),
thread and empty registry: registry insertion precedes thread-id capture. -/
theorem C5_trampoline_order_witness :
    (1 : Nat) ∉ ([] : List Nat) ∧
    before TEvent.register TEvent.captureId
      (threadEntryPoint ⟨5, true, true⟩ 1
        { ThreadState.mk0 "n" with threadHandle_ := 7 } []).trace :=
  ⟨by simp,
   (C5_trampoline_order ⟨5, true, true⟩ 1 { ThreadState.mk0 "n" with threadHandle_ := 7 } []
     (by simp)).1⟩

/-- C6: whether the user code `run()` returns normally or faults (the fault
being caught at the trampoline boundary by `JUCE_CATCH_ALL_ASSERT`, so that
`threadEntryPoint` always completes), the cleanup sequence always executes:
the final state has a null handle and a null thread id, the thread is no
longer a member of the registry, and the trace always ends with
deregistration, handle release and id reset.  The oracle `o` is universally
quantified, so this holds in particular for `o.runFaults = true`. -/
theorem C6_trampoline_cleanup_always (o : TrampOracle) (self : Nat) (t : ThreadState)
    (reg : List Nat) (hself : self ∉ reg) :
    (threadEntryPoint o self t reg).st.threadHandle_ = 0 ∧
    (threadEntryPoint o self t reg).st.threadId_ = 0 ∧
    self ∉ (threadEntryPoint o self t reg).reg ∧
    [TEvent.deregister, TEvent.resetHandle, TEvent.resetId] <:+
      (threadEntryPoint o self t reg).trace := by
  refine ⟨rfl, rfl, ?_, ?_⟩
  · have hreg : (threadEntryPoint o self t reg).reg = reg := by
      simp only [threadEntryPoint]
      exact erase_append_singleton reg hself
    rw [hreg]
    exact hself
  · simp only [threadEntryPoint]
    exact List.suffix_append _ _

/-- Witness for C6 at a concrete faulting run: cleanup still leaves a null
handle, null id, no registry membership, and the cleanup suffix in the
trace. -/
theorem C6_trampoline_cleanup_always_witness :
    (2 : Nat) ∉ ([] : List Nat) ∧
    ((threadEntryPoint ⟨5, true, true⟩ 2
        { ThreadState.mk0 "m" with threadHandle_ := 9 } []).st.threadHandle_ = 0 ∧
      (threadEntryPoint ⟨5, true, true⟩ 2
        { ThreadState.mk0 "m" with threadHandle_ := 9 } []).st.threadId_ = 0 ∧
      (2 : Nat) ∉ (threadEntryPoint ⟨5, true, true⟩ 2
        { ThreadState.mk0 "m" with threadHandle_ := 9 } []).reg ∧
      [TEvent.deregister, TEvent.resetHandle, TEvent.resetId] <:+
        (threadEntryPoint ⟨5, true, true⟩ 2
          { ThreadState.mk0 "m" with threadHandle_ := 9 } []).trace) :=
  ⟨by simp,
   C6_trampoline_cleanup_always ⟨5, true, true⟩ 2
     { ThreadState.mk0 "m" with threadHandle_ := 9 } [] (by simp)⟩

/-! ### Claim C1: `Thread::stopThread` -/

/-- `Thread::stopThread (timeOutMilliseconds)` (lines 178-210), acting on the
calling thread's view of the target instance and of the registry `reg` in
which the instance is registered under the key `self`.  If the thread is
running (line 186): signal cooperative cancellation (line 188) and the wake
event (line 189); then, when `timeOutMilliseconds != 0` (line 191), perform
`waitForThreadToExit (timeOutMilliseconds)` (line 192).  The oracle `exits`
says whether the target thread exited cooperatively during that wait — in
which case the trampoline's own cleanup (registry removal, handle and id
reset; lines 80-92) has executed by the time the wait returns.  With a
negative timeout and a never-exiting target the wait never returns, which
the embedding records as `none`.  After the wait, if the thread is still
running (line 194), escalate: `juce_killThread`, zero handle and id, and
remove the instance from the registry from the caller's side (lines
202-207).  The returned boolean records whether this forced path was
taken. -/
def stopThreadP (self : Nat) (timeOutMilliseconds : Int) (exits : Bool)
    (th : ThreadState) (reg : List Nat) : Option (ThreadState × List Nat × Bool) :=
  if isThreadRunning th then
    let th1 := notify (signalThreadShouldExit th)
    let afterWait : Option (ThreadState × List Nat) :=
      if timeOutMilliseconds ≠ 0 then
        if exits then some ({ th1 with threadHandle_ := 0, threadId_ := 0 }, reg.erase self)
        else if 0 < timeOutMilliseconds then some (th1, reg)
        else none
      else some (th1, reg)
    match afterWait with
    | none => none
    | some (th2, reg2) =>
      if isThreadRunning th2 then
        some ({ th2 with threadHandle_ := 0, threadId_ := 0 }, reg2.erase self, true)
      else
        some (th2, reg2, false)
  else
    some (th, reg, false)

/-- Postcondition of C1 on the result of `stopThreadP` for a target that was
in state `th` with cancellation oracle `exits`: whenever the call returns,
the handle and id are null and `self` is not a registry member, and the
forced-termination path was taken exactly when the target was running and
did not exit cooperatively during the wait. -/
def stopPost (th : ThreadState) (exits : Bool) (self : Nat) :
    Option (ThreadState × List Nat × Bool) → Prop
  | none => True
  | some (th2, reg2, forced) =>
    th2.threadHandle_ = 0 ∧ th2.threadId_ = 0 ∧ self ∉ reg2 ∧
      forced = (isThreadRunning th && !exits)

theorem not_mem_erase_of_count_le_one {a : Nat} {l : List Nat} (h : l.count a ≤ 1) :
    a ∉ l.erase a := by
  have hc := List.count_erase_self a l
  intro hmem
  have := List.count_pos_iff.mpr hmem
  omega

/-- C1: for every target thread state, every nonzero timeout and a caller
distinct from the target, whenever `stopThread` returns — whether the target
exited cooperatively during the wait or was force-killed — the handle and
thread id are null (`isThreadRunning()` is false) and the target is not a
member of the registry; and the escalation to forced termination happened
exactly when the target was running and had not exited after the timeout.
The well-formedness hypotheses say that an idle thread has a null id and is
not registered, and that the registry holds the target at most once. -/
theorem C1_stopThread_stops (self caller : Nat) (timeOutMilliseconds : Int) (exits : Bool)
    (th : ThreadState) (reg : List Nat)
    (htz : timeOutMilliseconds ≠ 0) (hcaller : caller ≠ self)
    (hwf : th.threadHandle_ = 0 → th.threadId_ = 0 ∧ self ∉ reg)
    (hcount : reg.count self ≤ 1) :
    stopPost th exits self (stopThreadP self timeOutMilliseconds exits th reg) := by
  by_cases hrun : isThreadRunning th
  · rw [isThreadRunning_eq_true] at hrun
    by_cases hex : exits
    · have : stopThreadP self timeOutMilliseconds exits th reg =
          some ({ notify (signalThreadShouldExit th) with threadHandle_ := 0, threadId_ := 0 },
            reg.erase self, false) := by
        simp [stopThreadP, isThreadRunning, hrun, htz, hex, notify, signalThreadShouldExit]
      rw [this]
      refine ⟨rfl, rfl, not_mem_erase_of_count_le_one hcount, ?_⟩
      simp [isThreadRunning, hrun, hex]
    · by_cases hpos : 0 < timeOutMilliseconds
      · have : stopThreadP self timeOutMilliseconds exits th reg =
            some ({ notify (signalThreadShouldExit th) with threadHandle_ := 0, threadId_ := 0 },
              reg.erase self, true) := by
          simp [stopThreadP, isThreadRunning, hrun, htz, hex, hpos, notify, signalThreadShouldExit]
        rw [this]
        refine ⟨rfl, rfl, not_mem_erase_of_count_le_one hcount, ?_⟩
        simp [isThreadRunning, hrun, hex]
      · have : stopThreadP self timeOutMilliseconds exits th reg = none := by
          simp [stopThreadP, isThreadRunning, hrun, htz, hex, hpos]
        rw [this]
        trivial
  · rw [Bool.not_eq_true, isThreadRunning_eq_false] at hrun
    have : stopThreadP self timeOutMilliseconds exits th reg = some (th, reg, false) := by
      simp [stopThreadP, isThreadRunning, hrun]
    rw [this]
    exact ⟨hrun, (hwf hrun).1, (hwf hrun).2, by simp [isThreadRunning, hrun]⟩

/-- Witness for C1: a running thread (handle 7, registered once) that ignores
cancellation, stopped with timeout 100; the forced path runs and the
postcondition holds. -/
theorem C1_stopThread_stops_witness :
    ((100 : Int) ≠ 0 ∧ (0 : Nat) ≠ 1 ∧
      (({ ThreadState.mk0 "w" with threadHandle_ := 7, threadId_ := 3 } : ThreadState).threadHandle_ = 0 →
        ({ ThreadState.mk0 "w" with threadHandle_ := 7, threadId_ := 3 } : ThreadState).threadId_ = 0 ∧
          (1 : Nat) ∉ [1]) ∧
      ([1] : List Nat).count 1 ≤ 1) ∧
    stopPost { ThreadState.mk0 "w" with threadHandle_ := 7, threadId_ := 3 } false 1
      (stopThreadP 1 100 false { ThreadState.mk0 "w" with threadHandle_ := 7, threadId_ := 3 } [1]) :=
  ⟨⟨by decide, by decide, by decide, by decide⟩,
   C1_stopThread_stops 1 0 100 false _ [1] (by decide) (by decide) (by decide) (by decide)⟩

/-! ### System state: all Thread instances plus the global `runningThreads` -/

/-- Program counter of the native thread executing the trampoline for one
instance: `idle` (no native thread is between `juce_createThread` and the end
of `threadEntryPoint`), `spawned` (native thread created by
`juce_createThread`, registry insertion at line 60 not yet executed),
`registered` (between the insertion at line 60 and the removal at line 84),
`dereg` (removed from the registry but the handle/id reset at lines 91-92 not
yet executed).  The native thread starts running as soon as
`juce_createThread` has spawned it, independently of whether the parent has
already stored the returned handle into `threadHandle_` (line 127), so
`spawned` and `registered` can both occur while `threadHandle_` is still
null. -/
inductive TrampPhase where
  | idle
  | spawned
  | registered
  | dereg
deriving DecidableEq, Repr

/-- One Thread instance together with the trampoline progress of its native
thread.  `pendingHandle` is the handle that `juce_createThread` (line 127)
has returned but that the parent has not yet stored into `threadHandle_`:
while it is `some h`, the spawned native thread already runs (and may
register itself) although `isThreadRunning()` still reports false. -/
structure LThread where
  st : ThreadState
  phase : TrampPhase
  pendingHandle : Option Nat

/-- Whole-program state: every Thread instance (keyed by an instance
identifier standing for the C++ `this` pointer) plus the global
`runningThreads` array (line 52), holding instance keys. -/
structure Sys where
  threads : Nat → Option LThread
  reg : List Nat

/-- Pointwise update of one instance. -/
def setThread (s : Sys) (i : Nat) (l : LThread) : Sys :=
  { s with threads := fun j => if j = i then some l else s.threads j }

/-- `Thread::stopThread` viewed at the system level: apply `stopThreadP` to
instance `i` and the global registry.  A missing instance is a no-op (the
C++ method always has a live `this`).  The phase bookkeeping records that a
stopped thread's native execution is over. -/
def stopThreadSys (i : Nat) (timeOutMilliseconds : Int) (exits : Bool) (s : Sys) : Option Sys :=
  match s.threads i with
  | none => some s
  | some l =>
    match stopThreadP i timeOutMilliseconds exits l.st s.reg with
    | none => none
    | some (th2, reg2, _) =>
      some { threads := fun j =>
               if j = i then
                 some ⟨th2, if th2.threadHandle_ = 0 then TrampPhase.idle else l.phase,
                   l.pendingHandle⟩
               else s.threads j
             reg := reg2 }

/-- First pass of `Thread::stopAllThreads` (lines 276-281): under one
acquisition of the registry lock, call `signalThreadShouldExit()` on every
registered thread. -/
def signalAllRegistered (s : Sys) : Sys :=
  { s with threads := fun j =>
      if j ∈ s.reg then
        (s.threads j).map (fun l => ⟨signalThreadShouldExit l.st, l.phase, l.pendingHandle⟩)
      else s.threads j }

/-- Second pass of `Thread::stopAllThreads` (lines 283-293): repeatedly read
`runningThreads[0]` under the lock (a `VoidArray` indexed out of range yields
the null pointer, hence `head?`), break when null, otherwise call
`stopThread (timeOutMilliseconds)` on it outside the lock.  `coop i` is the
cancellation oracle for instance `i` (whether it exits cooperatively during
the wait inside its `stopThread` call); `fuel` bounds the recursion depth of
the embedding of the unbounded `for (;;)` loop, `none` meaning the loop has
not returned within `fuel` iterations. -/
def stopAllLoop (timeOutMilliseconds : Int) (coop : Nat → Bool) :
    Nat → Sys → Option Sys
  | 0, _ => none
  | fuel + 1, s =>
    match s.reg.head? with
    | none => some s
    | some i =>
      match stopThreadSys i timeOutMilliseconds (coop i) s with
      | none => none
      | some s2 => stopAllLoop timeOutMilliseconds coop fuel s2

/-- `Thread::stopAllThreads (timeOutMilliseconds)` (lines 274-294): the
flag-setting pass followed by the head-popping stop loop. -/
def stopAllThreads (timeOutMilliseconds : Int) (coop : Nat → Bool) (fuel : Nat) (s : Sys) :
    Option Sys :=
  stopAllLoop timeOutMilliseconds coop fuel (signalAllRegistered s)

/-- `Thread::getNumRunningThreads` (lines 252-255): `runningThreads.size()`. -/
def getNumRunningThreads (s : Sys) : Nat :=
  s.reg.length

theorem stopThreadP_cons (i : Nat) (rest : List Nat) (timeOutMilliseconds : Int) (exits : Bool)
    (th : ThreadState) (hh : th.threadHandle_ ≠ 0)
    (hok : 0 ≤ timeOutMilliseconds ∨ exits = true) :
    ∃ th2 b, stopThreadP i timeOutMilliseconds exits th (i :: rest) = some (th2, rest, b) ∧
      th2.threadHandle_ = 0 := by
  by_cases htz : timeOutMilliseconds = 0
  · refine ⟨{ notify (signalThreadShouldExit th) with threadHandle_ := 0, threadId_ := 0 },
      true, ?_, rfl⟩
    simp [stopThreadP, isThreadRunning, notify, signalThreadShouldExit, hh, htz,
      List.erase_cons_head]
  · by_cases hex : exits
    · refine ⟨{ notify (signalThreadShouldExit th) with threadHandle_ := 0, threadId_ := 0 },
        false, ?_, rfl⟩
      simp [stopThreadP, isThreadRunning, notify, signalThreadShouldExit, hh, htz, hex,
        List.erase_cons_head]
    · have hpos : 0 < timeOutMilliseconds := by
        rcases hok with h | h
        · omega
        · exact absurd h hex
      refine ⟨{ notify (signalThreadShouldExit th) with threadHandle_ := 0, threadId_ := 0 },
        true, ?_, rfl⟩
      simp [stopThreadP, isThreadRunning, notify, signalThreadShouldExit, hh, htz, hex, hpos,
        List.erase_cons_head]

theorem stopThreadSys_head (s : Sys) (i : Nat) (rest : List Nat) (timeOutMilliseconds : Int)
    (exits : Bool) (l : LThread)
    (hreg : s.reg = i :: rest) (hl : s.threads i = some l) (hh : l.st.threadHandle_ ≠ 0)
    (hok : 0 ≤ timeOutMilliseconds ∨ exits = true) :
    ∃ s2, stopThreadSys i timeOutMilliseconds exits s = some s2 ∧ s2.reg = rest ∧
      ∀ j, j ≠ i → s2.threads j = s.threads j := by
  obtain ⟨th2, b, heq, _⟩ := stopThreadP_cons i rest timeOutMilliseconds exits l.st hh hok
  refine ⟨{ threads := fun j =>
              if j = i then
                some ⟨th2, if th2.threadHandle_ = 0 then TrampPhase.idle else l.phase,
                  l.pendingHandle⟩
              else s.threads j
            reg := rest }, ?_, rfl, ?_⟩
  · simp only [stopThreadSys, hl, hreg, heq]
  · intro j hj
    simp [if_neg hj]

theorem stopAllLoop_empties (timeOutMilliseconds : Int) (coop : Nat → Bool) :
    ∀ (fuel : Nat) (s : Sys), s.reg.Nodup →
      (∀ i ∈ s.reg, ∃ l, s.threads i = some l ∧ l.st.threadHandle_ ≠ 0) →
      (∀ i ∈ s.reg, 0 ≤ timeOutMilliseconds ∨ coop i = true) →
      s.reg.length < fuel →
      ∃ s2, stopAllLoop timeOutMilliseconds coop fuel s = some s2 ∧ s2.reg = [] := by
  intro fuel
  induction fuel with
  | zero =>
    intro s _ _ _ hlen
    omega
  | succ fuel ih =>
    intro s hnd hrun hterm hlen
    cases hregeq : s.reg with
    | nil =>
      refine ⟨s, ?_, hregeq⟩
      simp [stopAllLoop, hregeq]
    | cons i rest =>
      obtain ⟨l, hl, hh⟩ := hrun i (by rw [hregeq]; exact List.mem_cons_self i rest)
      obtain ⟨s2, hs2, hs2reg, hs2th⟩ :=
        stopThreadSys_head s i rest timeOutMilliseconds (coop i) l hregeq hl hh
          (hterm i (by rw [hregeq]; exact List.mem_cons_self i rest))
      have hnd2 : s2.reg.Nodup := by
        rw [hs2reg]
        rw [hregeq] at hnd
        exact (List.nodup_cons.mp hnd).2
      have hirest : i ∉ rest := by
        rw [hregeq] at hnd
        exact (List.nodup_cons.mp hnd).1
      have hrun2 : ∀ j ∈ s2.reg, ∃ l2, s2.threads j = some l2 ∧ l2.st.threadHandle_ ≠ 0 := by
        intro j hj
        rw [hs2reg] at hj
        have hji : j ≠ i := fun hji => hirest (hji ▸ hj)
        rw [hs2th j hji]
        exact hrun j (by rw [hregeq]; exact List.mem_cons_of_mem i hj)
      have hterm2 : ∀ j ∈ s2.reg, 0 ≤ timeOutMilliseconds ∨ coop j = true := by
        intro j hj
        rw [hs2reg] at hj
        exact hterm j (by rw [hregeq]; exact List.mem_cons_of_mem i hj)
      have hlen2 : s2.reg.length < fuel := by
        rw [hs2reg]
        rw [hregeq] at hlen
        simpa using Nat.lt_of_succ_lt_succ hlen
      obtain ⟨s3, hs3, hs3reg⟩ := ih s2 hnd2 hrun2 hterm2 hlen2
      refine ⟨s3, ?_, hs3reg⟩
      simp only [stopAllLoop, hregeq, List.head?_cons, hs2]
      exact hs3

/-- C9: `stopAllThreads (t)` first sets the cooperative-cancellation flag on
every thread currently in the registry (one pass under a single acquisition
of the registry lock), then repeatedly reads the head of the registry
(under the lock, releasing it before the blocking call) and runs
`stopThread (t)` on it until the registry is empty; when every registered
thread has a live handle, the registry holds no duplicates, and every
`stopThread` call returns (nonnegative timeout or cooperative exit), the
whole call returns with registry count 0.  `fuel` is any bound exceeding the
number of registered threads. -/
theorem C9_stopAllThreads_empties (s : Sys) (timeOutMilliseconds : Int) (coop : Nat → Bool)
    (fuel : Nat)
    (hnd : s.reg.Nodup)
    (hrun : ∀ i ∈ s.reg, ∃ l, s.threads i = some l ∧ l.st.threadHandle_ ≠ 0)
    (hterm : ∀ i ∈ s.reg, 0 ≤ timeOutMilliseconds ∨ coop i = true)
    (hfuel : s.reg.length < fuel) :
    (∀ i ∈ s.reg, ∃ l2, (signalAllRegistered s).threads i = some l2 ∧
        l2.st.threadShouldExit_ = true) ∧
    ∃ s2, stopAllThreads timeOutMilliseconds coop fuel s = some s2 ∧ s2.reg = [] ∧
      getNumRunningThreads s2 = 0 := by
  constructor
  · intro i hi
    obtain ⟨l, hl, _⟩ := hrun i hi
    refine ⟨⟨signalThreadShouldExit l.st, l.phase, l.pendingHandle⟩, ?_, rfl⟩
    simp [signalAllRegistered, hi, hl]
  · have hreg1 : (signalAllRegistered s).reg = s.reg := rfl
    have hrun1 : ∀ i ∈ (signalAllRegistered s).reg,
        ∃ l, (signalAllRegistered s).threads i = some l ∧ l.st.threadHandle_ ≠ 0 := by
      intro i hi
      rw [hreg1] at hi
      obtain ⟨l, hl, hh⟩ := hrun i hi
      refine ⟨⟨signalThreadShouldExit l.st, l.phase, l.pendingHandle⟩, ?_, hh⟩
      simp [signalAllRegistered, hi, hl]
    obtain ⟨s2, hs2, hs2reg⟩ :=
      stopAllLoop_empties timeOutMilliseconds coop fuel (signalAllRegistered s)
        (by rw [hreg1]; exact hnd) hrun1 (by rw [hreg1]; exact hterm)
        (by rw [hreg1]; exact hfuel)
    exact ⟨s2, hs2, hs2reg, by simp [getNumRunningThreads, hs2reg]⟩

/-- Concrete running instances and system used by the C9 witness. -/
def thA : ThreadState := { ThreadState.mk0 "a" with threadHandle_ := 11, threadId_ := 21 }

/-- Second concrete running instance for the C9 witness. -/
def thB : ThreadState := { ThreadState.mk0 "b" with threadHandle_ := 12, threadId_ := 22 }

/-- Concrete two-thread system for the C9 witness. -/
def sC9 : Sys :=
  { threads := fun j =>
      if j = 1 then some ⟨thA, TrampPhase.registered, none⟩
      else if j = 2 then some ⟨thB, TrampPhase.registered, none⟩
      else none
    reg := [1, 2] }

/-- Witness for C9: two registered running threads, one cooperative and one
adversarial, stopped with timeout 100; both get flagged and the registry
empties. -/
theorem C9_stopAllThreads_empties_witness :
    (sC9.reg.Nodup ∧ sC9.reg.length < 3) ∧
    ((∀ i ∈ sC9.reg, ∃ l2, (signalAllRegistered sC9).threads i = some l2 ∧
        l2.st.threadShouldExit_ = true) ∧
      ∃ s2, stopAllThreads 100 (fun j => decide (j = 1)) 3 sC9 = some s2 ∧ s2.reg = [] ∧
        getNumRunningThreads s2 = 0) :=
  ⟨⟨by decide, by decide⟩,
   C9_stopAllThreads_empties sC9 100 (fun j => decide (j = 1)) 3 (by decide)
     (by
       intro i hi
       simp only [sC9, List.mem_cons, List.mem_singleton, List.not_mem_nil, or_false] at hi
       rcases hi with rfl | rfl
       · exact ⟨_, rfl, by decide⟩
       · exact ⟨_, rfl, by decide⟩)
     (fun i _ => Or.inl (by decide))
     (by decide)⟩

/-! ### Claim C2: registry membership versus `isThreadRunning` over
interleavings -/

/-- Replacement of the global registry contents. -/
def setReg (s : Sys) (r : List Nat) : Sys :=
  { s with reg := r }

/-- Per-instance effect of line 123 of `startThread()` (executed under the
start/stop lock before `juce_createThread` is called at line 127): clear the
cancellation flag. -/
def clearedSt (t : ThreadState) : ThreadState :=
  { t with threadShouldExit_ := false }

/-- Per-instance effect of the completion of lines 127-129 of
`startThread()`: store the handle that `juce_createThread` returned, apply
the cached priority (boolean result discarded at line 128, no state effect)
and signal the start gate. -/
def assignedSt (t : ThreadState) (h : Nat) : ThreadState :=
  { t with threadHandle_ := h, startGateSignaled_ := true }

/-- Per-instance effect of the trampoline's id capture (line 65). -/
def idCapturedSt (t : ThreadState) (tid : Nat) : ThreadState :=
  { t with threadId_ := tid }

/-- Per-instance effect of the trampoline's final handle/id reset (lines
91-92). -/
def finishedSt (t : ThreadState) : ThreadState :=
  { t with threadHandle_ := 0, threadId_ := 0 }

/-- Per-instance effect of the forced-kill tail of `stopThread` together
with the cancellation/notify signalling that precedes it (lines 188-204). -/
def killedSt (t : ThreadState) : ThreadState :=
  { notify (signalThreadShouldExit t) with threadHandle_ := 0, threadId_ := 0 }

/-- One interleaving step of the managed-thread machinery.  Each constructor
corresponds to one atomically-executed block of the source: object
construction (lines 103-111); the first half of `startThread()` on an idle
instance up to and including the spawn performed inside `juce_createThread`
(lines 123-127: flag clear, native thread creation — the new native thread
is runnable from this point on, while the returned handle is only pending);
the completion of `startThread()` (lines 127-129: handle assignment,
priority application, gate signal — this races with the spawned thread,
which does not wait for it before registering); the trampoline's registry
insertion and id capture (lines 58-65); the trampoline's registry removal
(lines 80-85); the trampoline's final handle and id reset (lines 87-92); the
forced-kill tail of `stopThread` (lines 188-207); and a bare
`signalThreadShouldExit()` (lines 154-157). -/
inductive Step : Sys → Sys → Prop where
  | construct (s : Sys) (i : Nat) (threadName : String) :
      s.threads i = none →
      Step s (setThread s i ⟨ThreadState.mk0 threadName, TrampPhase.idle, none⟩)
  | spawn (s : Sys) (i : Nat) (l : LThread) (h : Nat) :
      s.threads i = some l → l.st.threadHandle_ = 0 → l.phase = TrampPhase.idle →
      l.pendingHandle = none → h ≠ 0 →
      Step s (setThread s i ⟨clearedSt l.st, TrampPhase.spawned, some h⟩)
  | assignHandle (s : Sys) (i : Nat) (l : LThread) (h : Nat) :
      s.threads i = some l → l.pendingHandle = some h →
      Step s (setThread s i ⟨assignedSt l.st h, l.phase, none⟩)
  | register (s : Sys) (i : Nat) (l : LThread) (tid : Nat) :
      s.threads i = some l → l.phase = TrampPhase.spawned →
      Step s (setReg
        (setThread s i ⟨idCapturedSt l.st tid, TrampPhase.registered, l.pendingHandle⟩)
        (s.reg ++ [i]))
  | deregister (s : Sys) (i : Nat) (l : LThread) :
      s.threads i = some l → l.phase = TrampPhase.registered →
      Step s (setReg (setThread s i ⟨l.st, TrampPhase.dereg, l.pendingHandle⟩) (s.reg.erase i))
  | finish (s : Sys) (i : Nat) (l : LThread) :
      s.threads i = some l → l.phase = TrampPhase.dereg →
      Step s (setThread s i ⟨finishedSt l.st, TrampPhase.idle, l.pendingHandle⟩)
  | forceStop (s : Sys) (i : Nat) (l : LThread) :
      s.threads i = some l → l.st.threadHandle_ ≠ 0 →
      Step s (setReg (setThread s i ⟨killedSt l.st, TrampPhase.idle, l.pendingHandle⟩)
        (s.reg.erase i))
  | signalExit (s : Sys) (i : Nat) (l : LThread) :
      s.threads i = some l →
      Step s (setThread s i ⟨signalThreadShouldExit l.st, l.phase, l.pendingHandle⟩)

/-- Reflexive-transitive closure of `Step`. -/
def Reachable : Sys → Sys → Prop :=
  Relation.ReflTransGen Step

/-- Invariant maintained by every step: the registry has no duplicates, and
an instance is a registry member exactly while its trampoline is between the
registry insertion (line 60) and the registry removal (line 84 — or the
caller-side removal of the forced-kill path, which also ends the native
thread's execution). -/
def Inv (s : Sys) : Prop :=
  s.reg.Nodup ∧
  (∀ i ∈ s.reg, ∃ l, s.threads i = some l ∧ l.phase = TrampPhase.registered) ∧
  (∀ i l, s.threads i = some l → l.phase = TrampPhase.registered → i ∈ s.reg)

theorem setThread_at (s : Sys) (i : Nat) (l : LThread) (j : Nat) :
    (setThread s i l).threads j = if j = i then some l else s.threads j :=
  rfl

theorem setReg_threads (s : Sys) (r : List Nat) (j : Nat) :
    (setReg s r).threads j = s.threads j :=
  rfl

theorem setReg_reg (s : Sys) (r : List Nat) : (setReg s r).reg = r :=
  rfl

theorem Inv_step {s s2 : Sys} (hstep : Step s s2) (hinv : Inv s) : Inv s2 := by
  obtain ⟨hnd, hmem, hpc⟩ := hinv
  cases hstep with
  | construct i threadName hnone =>
    refine ⟨hnd, ?_, ?_⟩
    · intro j hj
      obtain ⟨l, hl, hph⟩ := hmem j hj
      have hji : j ≠ i := fun hji => by rw [hji, hnone] at hl; cases hl
      exact ⟨l, by rw [setThread_at, if_neg hji]; exact hl, hph⟩
    · intro j l2 hl2 hph2
      rw [setThread_at] at hl2
      by_cases hji : j = i
      · rw [if_pos hji] at hl2
        cases Option.some.inj hl2
        cases hph2
      · rw [if_neg hji] at hl2
        exact hpc j l2 hl2 hph2
  | spawn i l h hl hh0 hph hpend hne =>
    refine ⟨hnd, ?_, ?_⟩
    · intro j hj
      obtain ⟨l2, hl2, hph2⟩ := hmem j hj
      have hji : j ≠ i := by
        intro hji
        rw [hji, hl] at hl2
        cases Option.some.inj hl2
        rw [hph] at hph2
        cases hph2
      exact ⟨l2, by rw [setThread_at, if_neg hji]; exact hl2, hph2⟩
    · intro j l2 hl2 hph2
      rw [setThread_at] at hl2
      by_cases hji : j = i
      · rw [if_pos hji] at hl2
        cases Option.some.inj hl2
        cases hph2
      · rw [if_neg hji] at hl2
        exact hpc j l2 hl2 hph2
  | assignHandle i l h hl hpend =>
    refine ⟨hnd, ?_, ?_⟩
    · intro j hj
      obtain ⟨l2, hl2, hph2⟩ := hmem j hj
      by_cases hji : j = i
      · subst hji
        rw [hl] at hl2
        cases Option.some.inj hl2
        exact ⟨⟨assignedSt l.st h, l.phase, none⟩, by rw [setThread_at, if_pos rfl], hph2⟩
      · exact ⟨l2, by rw [setThread_at, if_neg hji]; exact hl2, hph2⟩
    · intro j l2 hl2 hph2
      rw [setThread_at] at hl2
      by_cases hji : j = i
      · subst hji
        rw [if_pos rfl] at hl2
        cases Option.some.inj hl2
        exact hpc j l hl hph2
      · rw [if_neg hji] at hl2
        exact hpc j l2 hl2 hph2
  | register i l tid hl hph =>
    have hinotmem : i ∉ s.reg := by
      intro hi
      obtain ⟨l2, hl2, hph2⟩ := hmem i hi
      rw [hl] at hl2
      cases Option.some.inj hl2
      rw [hph] at hph2
      cases hph2
    refine ⟨?_, ?_, ?_⟩
    · rw [setReg_reg, List.nodup_append]
      refine ⟨hnd, List.nodup_singleton i, ?_⟩
      intro a ha hmem2
      rw [List.mem_singleton] at hmem2
      exact hinotmem (hmem2 ▸ ha)
    · intro j hj
      rw [setReg_reg] at hj
      rcases List.mem_append.mp hj with hj | hj
      · obtain ⟨l2, hl2, hph2⟩ := hmem j hj
        have hji : j ≠ i := fun hji => hinotmem (hji ▸ hj)
        exact ⟨l2, by rw [setReg_threads, setThread_at, if_neg hji]; exact hl2, hph2⟩
      · have hji : j = i := by simpa using hj
        exact ⟨_, by rw [setReg_threads, setThread_at, if_pos hji], rfl⟩
    · intro j l2 hl2 hph2
      rw [setReg_threads, setThread_at] at hl2
      rw [setReg_reg]
      by_cases hji : j = i
      · subst hji
        exact List.mem_append.mpr (Or.inr (by simp))
      · rw [if_neg hji] at hl2
        exact List.mem_append.mpr (Or.inl (hpc j l2 hl2 hph2))
  | deregister i l hl hph =>
    refine ⟨?_, ?_, ?_⟩
    · rw [setReg_reg]
      exact hnd.erase i
    · intro j hj
      rw [setReg_reg] at hj
      have hj2 : j ≠ i ∧ j ∈ s.reg := (hnd.mem_erase_iff).mp hj
      obtain ⟨l2, hl2, hph2⟩ := hmem j hj2.2
      exact ⟨l2, by rw [setReg_threads, setThread_at, if_neg hj2.1]; exact hl2, hph2⟩
    · intro j l2 hl2 hph2
      rw [setReg_threads, setThread_at] at hl2
      rw [setReg_reg]
      by_cases hji : j = i
      · rw [if_pos hji] at hl2
        cases Option.some.inj hl2
        cases hph2
      · rw [if_neg hji] at hl2
        exact (List.mem_erase_of_ne hji).mpr (hpc j l2 hl2 hph2)
  | finish i l hl hph =>
    refine ⟨hnd, ?_, ?_⟩
    · intro j hj
      obtain ⟨l2, hl2, hph2⟩ := hmem j hj
      have hji : j ≠ i := by
        intro hji
        rw [hji, hl] at hl2
        cases Option.some.inj hl2
        rw [hph] at hph2
        cases hph2
      exact ⟨l2, by rw [setThread_at, if_neg hji]; exact hl2, hph2⟩
    · intro j l2 hl2 hph2
      rw [setThread_at] at hl2
      by_cases hji : j = i
      · rw [if_pos hji] at hl2
        cases Option.some.inj hl2
        cases hph2
      · rw [if_neg hji] at hl2
        exact hpc j l2 hl2 hph2
  | forceStop i l hl hh =>
    refine ⟨?_, ?_, ?_⟩
    · rw [setReg_reg]
      exact hnd.erase i
    · intro j hj
      rw [setReg_reg] at hj
      have hj2 : j ≠ i ∧ j ∈ s.reg := (hnd.mem_erase_iff).mp hj
      obtain ⟨l2, hl2, hph2⟩ := hmem j hj2.2
      exact ⟨l2, by rw [setReg_threads, setThread_at, if_neg hj2.1]; exact hl2, hph2⟩
    · intro j l2 hl2 hph2
      rw [setReg_threads, setThread_at] at hl2
      rw [setReg_reg]
      by_cases hji : j = i
      · rw [if_pos hji] at hl2
        cases Option.some.inj hl2
        cases hph2
      · rw [if_neg hji] at hl2
        exact (List.mem_erase_of_ne hji).mpr (hpc j l2 hl2 hph2)
  | signalExit i l hl =>
    refine ⟨hnd, ?_, ?_⟩
    · intro j hj
      obtain ⟨l2, hl2, hph2⟩ := hmem j hj
      by_cases hji : j = i
      · subst hji
        rw [hl] at hl2
        cases Option.some.inj hl2
        exact ⟨⟨signalThreadShouldExit l.st, l.phase, l.pendingHandle⟩,
          by rw [setThread_at, if_pos rfl], hph2⟩
      · exact ⟨l2, by rw [setThread_at, if_neg hji]; exact hl2, hph2⟩
    · intro j l2 hl2 hph2
      rw [setThread_at] at hl2
      by_cases hji : j = i
      · subst hji
        rw [if_pos rfl] at hl2
        cases Option.some.inj hl2
        exact hpc j l hl hph2
      · rw [if_neg hji] at hl2
        exact hpc j l2 hl2 hph2

/-- C2 amended: at every point, `isThreadRunning()` is true iff
`threadHandle_` is non-null (that half of the claim is definitional); and in
every state reachable from an invariant-satisfying state the registry is
duplicate-free and an instance is a registry member exactly while its
trampoline is between the registry insertion (line 60) and the registry
removal (line 84, or the caller-side removal of the forced-kill path).
Registry membership is NOT equivalent to `isThreadRunning()`: see the
counterexample, which reaches both a running-but-unregistered state and a
registered-but-not-running state. -/
theorem C2_registry_handle_amended (s s2 : Sys) (h0 : Inv s) (hr : Reachable s s2) :
    (∀ t : ThreadState, isThreadRunning t = true ↔ t.threadHandle_ ≠ 0) ∧
    Inv s2 ∧
    (∀ i ∈ s2.reg, ∃ l, s2.threads i = some l ∧ l.phase = TrampPhase.registered) ∧
    (∀ i l, s2.threads i = some l → l.phase = TrampPhase.registered → i ∈ s2.reg) := by
  have hinv2 : Inv s2 := by
    induction hr with
    | refl => exact h0
    | tail hab hbc ih => exact Inv_step hbc ih
  exact ⟨fun t => isThreadRunning_eq_true t, hinv2, hinv2.2.1, hinv2.2.2⟩

/-- Initial state of the C2 counterexample: one constructed, idle instance
(key 1) and an empty registry. -/
def sysCE0 : Sys :=
  { threads := fun j =>
      if j = 1 then some ⟨ThreadState.mk0 "w", TrampPhase.idle, none⟩ else none
    reg := [] }

/-- State after `startThread()` on instance 1 has called `juce_createThread`
(line 127), which spawned the native thread and returned handle 7, while the
parent has not yet stored that handle. -/
def sysCEsp : Sys :=
  setThread sysCE0 1 ⟨clearedSt (ThreadState.mk0 "w"), TrampPhase.spawned, some 7⟩

/-- State after the parent has additionally completed the handle assignment
(lines 127-129), while the spawned native thread has not yet executed the
trampoline's registry insertion: running but not registered. -/
def sysCE1 : Sys :=
  setThread sysCEsp 1 ⟨assignedSt (clearedSt (ThreadState.mk0 "w")) 7, TrampPhase.spawned, none⟩

/-- State where instead the spawned native thread has executed the registry
insertion and id capture (lines 58-65) before the parent's handle assignment
completed: registered but `threadHandle_` still null. -/
def sysCE2 : Sys :=
  setReg (setThread sysCEsp 1
    ⟨idCapturedSt (clearedSt (ThreadState.mk0 "w")) 5, TrampPhase.registered, some 7⟩)
    (sysCEsp.reg ++ [1])

/-- State of instance `i`, with an arbitrary default for a missing key. -/
def threadStAt (s : Sys) (i : Nat) : ThreadState :=
  match s.threads i with
  | some l => l.st
  | none => ThreadState.mk0 ""

theorem Inv_sysCE0 : Inv sysCE0 := by
  refine ⟨List.nodup_nil, ?_, ?_⟩
  · intro i hi
    exact absurd hi (List.not_mem_nil i)
  · intro i l hl hph
    by_cases hi : i = 1
    · subst hi
      have h2 : sysCE0.threads 1 = some ⟨ThreadState.mk0 "w", TrampPhase.idle, none⟩ := rfl
      rw [h2] at hl
      cases Option.some.inj hl
      cases hph
    · have h2 : sysCE0.threads i = none := by
        simp [sysCE0, hi]
      rw [h2] at hl
      cases hl

/-- C2 counterexample: from a legal initial state, the registry/handle
equivalence fails in both directions.  After `juce_createThread` has spawned
the native thread and the parent has stored the handle, but before the
trampoline's registry insertion, instance 1 is running yet not a registry
member (`sysCE1`).  Alternatively, if the spawned thread executes the
registry insertion (line 60) before the parent's handle assignment (line
127) completes, instance 1 is a registry member while `isThreadRunning()` is
still false (`sysCE2`).  Either state refutes the claimed equivalence
between registry membership and `isThreadRunning()`. -/
theorem C2_counterexample :
    Inv sysCE0 ∧
    (Reachable sysCE0 sysCE1 ∧
      isThreadRunning (threadStAt sysCE1 1) = true ∧ 1 ∉ sysCE1.reg) ∧
    (Reachable sysCE0 sysCE2 ∧
      isThreadRunning (threadStAt sysCE2 1) = false ∧ 1 ∈ sysCE2.reg) := by
  refine ⟨Inv_sysCE0, ⟨?_, by decide, by decide⟩, ⟨?_, by decide, by decide⟩⟩
  · exact Relation.ReflTransGen.tail
      (Relation.ReflTransGen.single
        (Step.spawn sysCE0 1 ⟨ThreadState.mk0 "w", TrampPhase.idle, none⟩ 7
          rfl rfl rfl rfl (by decide)))
      (Step.assignHandle sysCEsp 1
        ⟨clearedSt (ThreadState.mk0 "w"), TrampPhase.spawned, some 7⟩ 7 rfl rfl)
  · exact Relation.ReflTransGen.tail
      (Relation.ReflTransGen.single
        (Step.spawn sysCE0 1 ⟨ThreadState.mk0 "w", TrampPhase.idle, none⟩ 7
          rfl rfl rfl rfl (by decide)))
      (Step.register sysCEsp 1
        ⟨clearedSt (ThreadState.mk0 "w"), TrampPhase.spawned, some 7⟩ 5 rfl rfl)

/-- Witness for the amended C2 at the concrete reachable state `sysCE2`
(spawned thread registered before the parent's handle assignment): the
registry is duplicate-free and its sole member, instance 1, is exactly the
one whose trampoline is between insertion and removal. -/
theorem C2_registry_handle_amended_witness :
    Inv sysCE0 ∧
    (∀ i ∈ sysCE2.reg, ∃ l, sysCE2.threads i = some l ∧ l.phase = TrampPhase.registered) :=
  ⟨Inv_sysCE0,
   (C2_registry_handle_amended sysCE0 sysCE2 Inv_sysCE0
     (Relation.ReflTransGen.tail
       (Relation.ReflTransGen.single
         (Step.spawn sysCE0 1 ⟨ThreadState.mk0 "w", TrampPhase.idle, none⟩ 7
           rfl rfl rfl rfl (by decide)))
       (Step.register sysCEsp 1
         ⟨clearedSt (ThreadState.mk0 "w"), TrampPhase.spawned, some 7⟩ 5 rfl rfl))).2.2.1⟩

end JuceThread
